import Mathlib

/-!
Shallow embedding of the Knock-Knock lifecycle views (`src/main/views.py`).

Users are identified by their primary key (a `Nat`).  A `Knock` record holds
the fields the lifecycle views touch.  Each view function is translated as a
pure function; a Django `PermissionDenied` is an `Err.permissionDenied`, and a
Python crash from dereferencing `None` (`knock.assigned_to.pk` when no worker
is assigned) is an `Err.attributeError`.  HTTP parameters arrive as
`Option String` (Django `request.POST.get` / `request.GET.get`).
-/

namespace KnockKnock

/-- Knock.Status values from the Django model. -/
inductive Status where
  | OPEN
  | RESERVED
  | CLOSED
deriving DecidableEq

/-- A calendar date as produced by `datetime.date.fromisoformat`. -/
structure PyDate where
  year : Nat
  month : Nat
  day : Nat
deriving DecidableEq

/-- One Knock record.  `submits` embeds the `KnockSubmit` join rows for this
knock (the set of user pks that submitted interest); `assigned_to`,
`request_stars` and `work_stars` are nullable columns. -/
structure Knock where
  requester : Nat
  assigned_to : Option Nat := none
  status : Status := Status.OPEN
  request_stars : Option Int := none
  work_stars : Option Int := none
  submits : List Nat := []
  title : String := ""
  category : String := ""
  request_date : PyDate := ⟨2020, 1, 1⟩
deriving DecidableEq

/-- Outcomes of a failed view call: Django `PermissionDenied` (HTTP 403), or
an uncaught Python `AttributeError`. -/
inductive Err where
  | permissionDenied (msg : String)
  | attributeError (msg : String)
deriving DecidableEq

/-! ## Python primitives used by the views -/

/-- Python `str.strip()` restricted to ASCII whitespace. -/
def pyStrip (s : String) : String :=
  ⟨((s.data.dropWhile Char.isWhitespace).reverse.dropWhile Char.isWhitespace).reverse⟩

/-- Truthiness of `s.strip()` in Python: nonempty after stripping. -/
def stripTruthy (s : String) : Bool :=
  !(pyStrip s).data.isEmpty

/-- Numeric value of a list of ASCII digits. -/
def digitsVal (cs : List Char) : Nat :=
  cs.foldl (fun a c => a * 10 + (c.toNat - 48)) 0

/-- Python `int(s)` on a string: strips whitespace, allows one sign, then
requires one or more digits; `none` models the `ValueError` raised otherwise. -/
def pyInt? (s : String) : Option Int :=
  let core : List Char → Option Nat := fun ds =>
    if ds ≠ [] ∧ ds.all Char.isDigit = true then some (digitsVal ds) else none
  match (pyStrip s).data with
  | '-' :: rest => (core rest).map (fun n => -(n : Int))
  | '+' :: rest => (core rest).map (fun n => (n : Int))
  | cs => (core cs).map (fun n => (n : Int))

/-- Gregorian leap-year test, as in `datetime`. -/
def isLeapYear (y : Nat) : Bool :=
  (y % 4 == 0 && y % 100 != 0) || y % 400 == 0

/-- Days in a month, as in `datetime`. -/
def daysInMonth (y m : Nat) : Nat :=
  if m = 2 then (if isLeapYear y then 29 else 28)
  else if m = 4 ∨ m = 6 ∨ m = 9 ∨ m = 11 then 30
  else 31

/-- Numeric value of one ASCII digit character. -/
def digitVal (c : Char) : Nat := c.toNat - 48

/-- Python `datetime.date.fromisoformat`: accepts exactly `YYYY-MM-DD` with a
valid year, month and day; `none` models the `ValueError` on anything else. -/
def fromisoformat? (s : String) : Option PyDate :=
  match s.data with
  | [y1, y2, y3, y4, h1, m1, m2, h2, d1, d2] =>
    if h1 == '-' && h2 == '-' && [y1, y2, y3, y4, m1, m2, d1, d2].all Char.isDigit then
      let y := ((digitVal y1 * 10 + digitVal y2) * 10 + digitVal y3) * 10 + digitVal y4
      let m := digitVal m1 * 10 + digitVal m2
      let d := digitVal d1 * 10 + digitVal d2
      if 1 ≤ y ∧ 1 ≤ m ∧ m ≤ 12 ∧ 1 ≤ d ∧ d ≤ daysInMonth y m then
        some ⟨y, m, d⟩
      else none
    else none
  | _ => none

/-! ## Lifecycle view functions -/

/-- View `submit(request, knock_pk)`: rejects the requester submitting to
their own knock and duplicate submissions, otherwise records the submission. -/
def submit (k : Knock) (actor : Nat) : Except Err Knock :=
  if k.requester = actor then
    .error (.permissionDenied "Cannot submit to owned knocks")
  else if actor ∈ k.submits then
    .error (.permissionDenied "User already submitted for this Knock Knock")
  else
    .ok { k with submits := k.submits ++ [actor] }

/-- View `assing_to(request, knock_pk, user_pk)`: only the requester may
assign, and only to a user with an existing submission on the knock. -/
def assing_to (k : Knock) (actor candidate : Nat) : Except Err Knock :=
  if k.requester ≠ actor then
    .error (.permissionDenied "Can assign only to owned Knock Knocks")
  else if candidate ∉ k.submits then
    .error (.permissionDenied "Cannot assing if worker did not submit before")
  else
    .ok { k with assigned_to := some candidate }

/-- View `rating(request, knock_pk)`: validates the POSTed `rating` field,
then branches on actor identity.  `knock.assigned_to.pk` is evaluated before
any identity check succeeds, so an unassigned knock raises `AttributeError`. -/
def rating (k : Knock) (actor : Nat) (ratingPost : Option String) : Except Err Knock :=
  match ratingPost with
  | none => .error (.permissionDenied "rating field missing")
  | some s =>
    match pyInt? s with
    | none => .error (.permissionDenied "rating must be a value between 1 and 5")
    | some v =>
      if v < 1 ∨ 5 < v then
        .error (.permissionDenied "rating must be a value between 1 and 5")
      else
        match k.assigned_to with
        | none => .error (.attributeError "NoneType object has no attribute pk")
        | some w =>
          if w = actor then
            if k.request_stars.isSome then
              .error (.permissionDenied "Worker already rated this Knock Knock")
            else
              .ok { k with request_stars := some v }
          else if k.requester = actor then
            if k.work_stars.isSome then
              .error (.permissionDenied "Worker already rated this Knock Knock")
            else
              .ok { k with work_stars := some v }
          else
            .error (.permissionDenied "Only requester and assigned can rate this Knock Knock")

/-- `KnockDeleteView.test_func`: the permission predicate of the delete view. -/
def KnockDeleteView.test_func (k : Knock) (actor : Nat) : Bool :=
  k.requester == actor && (k.status == Status.OPEN || k.status == Status.RESERVED)

/-! ## Search view -/

/-- GET parameters of the `search` view (`None` when absent). -/
structure SearchParams where
  title : Option String := none
  date : Option String := none
  category : Option String := none
  page : Option String := none

/-- One Django `Q` filter built by `search`. -/
inductive Filt where
  | titleIcontains (t : String)
  | dateEq (d : PyDate)
  | categoryIcontains (c : String)
deriving DecidableEq

/-- Is `pat` a contiguous leading segment of `l`? -/
def segStartOf (pat l : List Char) : Bool :=
  match pat, l with
  | [], _ => true
  | _ :: _, [] => false
  | a :: as, b :: bs => a == b && segStartOf as bs

/-- Does `l` contain `pat` as a contiguous segment? -/
def segContained (pat : List Char) : List Char → Bool
  | [] => pat.isEmpty
  | b :: bs => segStartOf pat (b :: bs) || segContained pat bs

/-- Django `field__icontains`: case-insensitive substring match. -/
def icontains (hay needle : String) : Bool :=
  segContained needle.toLower.data hay.toLower.data

/-- Does knock `k` satisfy filter `f`? -/
def applyFilt (f : Filt) (k : Knock) : Bool :=
  match f with
  | .titleIcontains t => icontains k.title t
  | .dateEq d => k.request_date == d
  | .categoryIcontains c => icontains k.category c

/-- The list of `Q` filters `search` accumulates: title when non-blank, date
when it parses as ISO, category when non-blank (the `if title is not None`
guard around the date block is always true, since `title` defaults to `""`). -/
def searchFilters (p : SearchParams) : List Filt :=
  (if stripTruthy (p.title.getD "") then [Filt.titleIcontains (p.title.getD "")] else [])
  ++ (match fromisoformat? (p.date.getD "") with
      | some d => [Filt.dateEq d]
      | none => [])
  ++ (if stripTruthy (p.category.getD "") then [Filt.categoryIcontains (p.category.getD "")] else [])

/-- The result set `search` builds before pagination: the conjunction of the
accumulated filters over the store when at least one filter exists, and the
initial `results = []` otherwise. -/
def searchResults (db : List Knock) (p : SearchParams) : List Knock :=
  let fs := searchFilters p
  if 0 < fs.length then db.filter (fun k => fs.all (fun f => applyFilt f k)) else []

/-- Django `Paginator.num_pages` with `per_page = 20`, `orphans = 0`,
`allow_empty_first_page = True`. -/
def numPages (count : Nat) : Nat :=
  max 1 ((count + 19) / 20)

/-- The object list of page `n` (1-based) with 20 items per page. -/
def pageItems (l : List Knock) (n : Nat) : List Knock :=
  (l.drop ((n - 1) * 20)).take 20

/-- The page number `search` ends up rendering: `PageNotAnInteger` (missing or
non-numeric page) falls back to page 1, `EmptyPage` (integer below 1 or above
`num_pages`) falls back to the last page. -/
def validPageNumber (count : Nat) (pg : Option String) : Nat :=
  match pg with
  | none => 1
  | some s =>
    match pyInt? s with
    | none => 1
    | some n => if n < 1 ∨ (numPages count : Int) < n then numPages count else n.toNat

/-- View `search(request)`: filter, then paginate 20 per page.  Returns the
rendered page object list together with its page number. -/
def search (db : List Knock) (p : SearchParams) : List Knock × Nat :=
  let results := searchResults db p
  let n := validPageNumber results.length p.page
  (pageItems results n, n)

/-! ## Helper lemmas about `rating` -/

theorem rating_worker_ok (k : Knock) (w : Nat) (v : Int) (s : String)
    (hw : k.assigned_to = some w) (hs : pyInt? s = some v)
    (h1 : 1 ≤ v) (h5 : v ≤ 5) (hrs : k.request_stars = none) :
    rating k w (some s) = .ok { k with request_stars := some v } := by
  have hvr : ¬ (v < 1 ∨ 5 < v) := by omega
  simp [rating, hs, hvr, hw, hrs]

theorem rating_worker_already (k : Knock) (w : Nat) (v : Int) (s : String)
    (hw : k.assigned_to = some w) (hs : pyInt? s = some v)
    (h1 : 1 ≤ v) (h5 : v ≤ 5) (hrs : k.request_stars.isSome = true) :
    rating k w (some s)
      = .error (.permissionDenied "Worker already rated this Knock Knock") := by
  have hvr : ¬ (v < 1 ∨ 5 < v) := by omega
  simp [rating, hs, hvr, hw, hrs]

theorem rating_requester_ok (k : Knock) (r w : Nat) (v : Int) (s : String)
    (hr : k.requester = r) (hw : k.assigned_to = some w) (hwr : w ≠ r)
    (hs : pyInt? s = some v) (h1 : 1 ≤ v) (h5 : v ≤ 5)
    (hws : k.work_stars = none) :
    rating k r (some s) = .ok { k with work_stars := some v } := by
  have hvr : ¬ (v < 1 ∨ 5 < v) := by omega
  simp [rating, hs, hvr, hw, hwr, hr, hws]

theorem rating_requester_already (k : Knock) (r w : Nat) (v : Int) (s : String)
    (hr : k.requester = r) (hw : k.assigned_to = some w) (hwr : w ≠ r)
    (hs : pyInt? s = some v) (h1 : 1 ≤ v) (h5 : v ≤ 5)
    (hws : k.work_stars.isSome = true) :
    rating k r (some s)
      = .error (.permissionDenied "Worker already rated this Knock Knock") := by
  have hvr : ¬ (v < 1 ∨ 5 < v) := by omega
  simp [rating, hs, hvr, hw, hwr, hr, hws]

theorem rating_other_denied (k : Knock) (a w : Nat) (v : Int) (s : String)
    (hw : k.assigned_to = some w) (hwa : w ≠ a) (hra : k.requester ≠ a)
    (hs : pyInt? s = some v) (h1 : 1 ≤ v) (h5 : v ≤ 5) :
    rating k a (some s)
      = .error (.permissionDenied "Only requester and assigned can rate this Knock Knock") := by
  have hvr : ¬ (v < 1 ∨ 5 < v) := by omega
  simp [rating, hs, hvr, hw, hwa, hra]

/-! ## Helper lemmas about `search` -/

theorem mem_searchResults (db : List Knock) (p : SearchParams) (k : Knock) :
    k ∈ searchResults db p ↔
      (k ∈ db ∧ searchFilters p ≠ []
        ∧ ∀ f ∈ searchFilters p, applyFilt f k = true) := by
  by_cases h : searchFilters p = []
  · simp [searchResults, h]
  · have hl : 0 < (searchFilters p).length := List.length_pos.mpr h
    simp [searchResults, hl, List.mem_filter, List.all_eq_true, h]

theorem searchFilters_forall (p : SearchParams) (k : Knock) :
    (∀ f ∈ searchFilters p, applyFilt f k = true) ↔
      ((stripTruthy (p.title.getD "") = true →
          icontains k.title (p.title.getD "") = true)
        ∧ (∀ d, fromisoformat? (p.date.getD "") = some d → k.request_date = d)
        ∧ (stripTruthy (p.category.getD "") = true →
          icontains k.category (p.category.getD "") = true)) := by
  by_cases ht : stripTruthy (p.title.getD "") = true
  <;> rcases hd : fromisoformat? (p.date.getD "") with _ | d
  <;> by_cases hc : stripTruthy (p.category.getD "") = true
  <;> simp [searchFilters, ht, hd, hc, applyFilt]

theorem validPageNumber_zero (pg : Option String) : validPageNumber 0 pg = 1 := by
  cases pg with
  | none => rfl
  | some s =>
    cases h : pyInt? s with
    | none => simp [validPageNumber, h]
    | some n =>
      simp only [validPageNumber, h]
      by_cases hn : n < 1 ∨ ((numPages 0 : Nat) : Int) < n
      · simp [hn]
        rfl
      · simp [hn]
        have h1 : numPages 0 = 1 := rfl
        rw [h1] at hn
        omega

theorem rating_not_int (k : Knock) (a : Nat) (s : String) (hs : pyInt? s = none) :
    rating k a (some s)
      = .error (.permissionDenied "rating must be a value between 1 and 5") := by
  simp [rating, hs]

theorem rating_out_of_range (k : Knock) (a : Nat) (s : String) (v : Int)
    (hs : pyInt? s = some v) (hv : v < 1 ∨ 5 < v) :
    rating k a (some s)
      = .error (.permissionDenied "rating must be a value between 1 and 5") := by
  simp [rating, hs, hv]

/-! ## Claim theorems -/

/-- C1: on a knock with requester `r` and assigned worker `w` (`r ≠ w`), and a
posted rating that parses to `v ∈ [1,5]`: the worker's call fails when
`request_stars` is already set and otherwise sets `request_stars = v`; the
requester's call fails when `work_stars` is already set and otherwise sets
`work_stars = v`; any other actor is rejected as unauthorized; each successful
call writes exactly one of the two rating fields, and the two fields can be
filled independently in either order. -/
theorem rating_spec_C1 (k : Knock) (r w : Nat) (v : Int) (s : String)
    (hr : k.requester = r) (hw : k.assigned_to = some w) (hrw : r ≠ w)
    (hs : pyInt? s = some v) (h1 : 1 ≤ v) (h5 : v ≤ 5) :
    (k.request_stars = none →
      rating k w (some s) = .ok { k with request_stars := some v })
    ∧ (k.request_stars.isSome = true →
      rating k w (some s)
        = .error (.permissionDenied "Worker already rated this Knock Knock"))
    ∧ (k.work_stars = none →
      rating k r (some s) = .ok { k with work_stars := some v })
    ∧ (k.work_stars.isSome = true →
      rating k r (some s)
        = .error (.permissionDenied "Worker already rated this Knock Knock"))
    ∧ (∀ a, a ≠ r → a ≠ w →
      rating k a (some s)
        = .error (.permissionDenied "Only requester and assigned can rate this Knock Knock"))
    ∧ (∀ k1, rating k w (some s) = .ok k1 →
        k1.work_stars = k.work_stars ∧ k1.request_stars = some v)
    ∧ (∀ k1, rating k r (some s) = .ok k1 →
        k1.request_stars = k.request_stars ∧ k1.work_stars = some v)
    ∧ (k.request_stars = none → k.work_stars = none →
        ∃ k1 k2, rating k w (some s) = .ok k1 ∧ rating k1 r (some s) = .ok k2
          ∧ k2.request_stars = some v ∧ k2.work_stars = some v)
    ∧ (k.request_stars = none → k.work_stars = none →
        ∃ k1 k2, rating k r (some s) = .ok k1 ∧ rating k1 w (some s) = .ok k2
          ∧ k2.request_stars = some v ∧ k2.work_stars = some v) := by
  have hwr : w ≠ r := fun h => hrw h.symm
  refine ⟨fun hrs => rating_worker_ok k w v s hw hs h1 h5 hrs,
    fun hrs => rating_worker_already k w v s hw hs h1 h5 hrs,
    fun hws => rating_requester_ok k r w v s hr hw hwr hs h1 h5 hws,
    fun hws => rating_requester_already k r w v s hr hw hwr hs h1 h5 hws,
    ?_, ?_, ?_, ?_, ?_⟩
  · intro a ha1 ha2
    refine rating_other_denied k a w v s hw (fun h => ha2 h.symm) ?_ hs h1 h5
    rw [hr]
    exact fun h => ha1 h.symm
  · intro k1 hok
    rcases hrs : k.request_stars with _ | u
    · rw [rating_worker_ok k w v s hw hs h1 h5 hrs] at hok
      injection hok with h
      subst h
      exact ⟨rfl, rfl⟩
    · rw [rating_worker_already k w v s hw hs h1 h5 (by simp [hrs])] at hok
      cases hok
  · intro k1 hok
    rcases hws : k.work_stars with _ | u
    · rw [rating_requester_ok k r w v s hr hw hwr hs h1 h5 hws] at hok
      injection hok with h
      subst h
      exact ⟨rfl, rfl⟩
    · rw [rating_requester_already k r w v s hr hw hwr hs h1 h5 (by simp [hws])] at hok
      cases hok
  · intro hrs hws
    refine ⟨{ k with request_stars := some v },
      { k with request_stars := some v, work_stars := some v },
      rating_worker_ok k w v s hw hs h1 h5 hrs, ?_, rfl, rfl⟩
    exact rating_requester_ok { k with request_stars := some v } r w v s hr hw hwr hs h1 h5 hws
  · intro hrs hws
    refine ⟨{ k with work_stars := some v },
      { k with request_stars := some v, work_stars := some v },
      rating_requester_ok k r w v s hr hw hwr hs h1 h5 hws, ?_, rfl, rfl⟩
    exact rating_worker_ok { k with work_stars := some v } w v s hw hs h1 h5 hrs

/-- C1 witness: requester 0, worker 1, rating "4" on a fresh knock. -/
theorem rating_spec_C1_witness :
    rating { requester := 0, assigned_to := some 1 } 1 (some "4")
      = .ok { requester := 0, assigned_to := some 1, request_stars := some 4 } :=
  (rating_spec_C1 { requester := 0, assigned_to := some 1 } 0 1 4 "4"
    rfl rfl (by decide) (by decide) (by decide) (by decide)).1 rfl

/-- C2: `assing_to` succeeds exactly when the actor is the requester and the
candidate has a submission on the knock; on success it sets
`assigned_to = candidate`, and on failure it raises `PermissionDenied`
(returning no updated record, so the knock is unchanged). -/
theorem assign_spec_C2 (k : Knock) (a c : Nat) :
    ((a = k.requester ∧ c ∈ k.submits) ↔ ∃ k1, assing_to k a c = .ok k1)
    ∧ (a = k.requester → c ∈ k.submits →
        assing_to k a c = .ok { k with assigned_to := some c })
    ∧ (¬(a = k.requester ∧ c ∈ k.submits) →
        ∃ msg, assing_to k a c = .error (Err.permissionDenied msg)) := by
  by_cases h1 : k.requester = a
  · by_cases h2 : c ∈ k.submits
    · have hok : assing_to k a c = .ok { k with assigned_to := some c } := by
        simp [assing_to, h1, h2]
      exact ⟨⟨fun _ => ⟨_, hok⟩, fun _ => ⟨h1.symm, h2⟩⟩, fun _ _ => hok,
        fun hno => absurd ⟨h1.symm, h2⟩ hno⟩
    · have herr : assing_to k a c
          = .error (.permissionDenied "Cannot assing if worker did not submit before") := by
        simp [assing_to, h1, h2]
      refine ⟨⟨fun hyes => absurd hyes.2 h2, fun ⟨k1, hok⟩ => ?_⟩,
        fun _ hc => absurd hc h2, fun _ => ⟨_, herr⟩⟩
      rw [herr] at hok
      cases hok
  · have h1a : ¬ a = k.requester := fun h => h1 h.symm
    have herr : assing_to k a c
        = .error (.permissionDenied "Can assign only to owned Knock Knocks") := by
      simp [assing_to, h1]
    refine ⟨⟨fun hyes => absurd hyes.1 h1a, fun ⟨k1, hok⟩ => ?_⟩,
      fun ha => absurd ha h1a, fun _ => ⟨_, herr⟩⟩
    rw [herr] at hok
    cases hok

/-- C2 witness: requester 0 assigns submitter 5 on a knock where 5 submitted. -/
theorem assign_spec_C2_witness :
    assing_to { requester := 0, submits := [5] } 0 5
      = .ok { requester := 0, submits := [5], assigned_to := some 5 } :=
  (assign_spec_C2 { requester := 0, submits := [5] } 0 5).2.1 rfl (by decide)

/-- C3: `submit` fails when the actor is the requester; a second submit by the
same user after a successful one fails; otherwise it succeeds and records the
submission. -/
theorem submit_spec_C3 (k : Knock) (u : Nat) :
    (u = k.requester →
      submit k u = .error (Err.permissionDenied "Cannot submit to owned knocks"))
    ∧ (∀ k1, submit k u = .ok k1 →
        submit k1 u
          = .error (Err.permissionDenied "User already submitted for this Knock Knock"))
    ∧ (u ≠ k.requester → u ∉ k.submits →
        submit k u = .ok { k with submits := k.submits ++ [u] }
          ∧ u ∈ ({ k with submits := k.submits ++ [u] } : Knock).submits) := by
  refine ⟨?_, ?_, ?_⟩
  · intro h
    simp [submit, h.symm]
  · intro k1 hok
    by_cases h1 : k.requester = u
    · simp [submit, h1] at hok
    · by_cases h2 : u ∈ k.submits
      · simp [submit, h1, h2] at hok
      · have hk : submit k u = .ok { k with submits := k.submits ++ [u] } := by
          simp [submit, h1, h2]
        rw [hk] at hok
        injection hok with h
        subst h
        simp [submit, h1]
  · intro h1 h2
    have h1a : ¬ k.requester = u := fun h => h1 h.symm
    exact ⟨by simp [submit, h1a, h2], by simp⟩

/-- C3 witness: user 7 submits to a fresh knock of requester 0, and the
repeated submit fails. -/
theorem submit_spec_C3_witness :
    submit { requester := 0 } 7 = .ok { requester := 0, submits := [7] }
    ∧ submit { requester := 0, submits := [7] } 7
        = .error (Err.permissionDenied "User already submitted for this Knock Knock") :=
  ⟨((submit_spec_C3 { requester := 0 } 7).2.2 (by decide) (by decide)).1,
    (submit_spec_C3 { requester := 0 } 7).2.1 { requester := 0, submits := [7] }
      ((submit_spec_C3 { requester := 0 } 7).2.2 (by decide) (by decide)).1⟩

/-- C4: the delete guard passes exactly when the actor is the requester and
the status is OPEN or RESERVED; in particular any other actor and the CLOSED
status are rejected. -/
theorem delete_spec_C4 (k : Knock) (a : Nat) :
    (KnockDeleteView.test_func k a = true ↔
      (a = k.requester ∧ (k.status = Status.OPEN ∨ k.status = Status.RESERVED)))
    ∧ (a ≠ k.requester → KnockDeleteView.test_func k a = false)
    ∧ (k.status = Status.CLOSED → KnockDeleteView.test_func k k.requester = false) := by
  refine ⟨?_, fun h => ?_, fun h => ?_⟩
  · simp only [KnockDeleteView.test_func, Bool.and_eq_true, Bool.or_eq_true, beq_iff_eq]
    constructor
    · exact fun ⟨x, y⟩ => ⟨x.symm, y⟩
    · exact fun ⟨x, y⟩ => ⟨x.symm, y⟩
  · have ha : ¬ k.requester = a := fun hh => h hh.symm
    simp [KnockDeleteView.test_func, ha]
  · simp [KnockDeleteView.test_func, h]

/-- C4 witness: the requester may delete an OPEN knock, and nobody may delete
a CLOSED one. -/
theorem delete_spec_C4_witness :
    KnockDeleteView.test_func { requester := 0 } 0 = true
    ∧ KnockDeleteView.test_func { requester := 0, status := Status.CLOSED } 0 = false :=
  ⟨(delete_spec_C4 { requester := 0 } 0).1.mpr ⟨rfl, Or.inl rfl⟩,
    (delete_spec_C4 { requester := 0, status := Status.CLOSED } 0).2.2 rfl⟩

/-- C9: `assing_to` performs no already-assigned or status check: on a knock
whose `assigned_to` is already set, the requester naming any user with a
submission succeeds and overwrites `assigned_to` with the new candidate. -/
theorem assign_overwrite_C9 (k : Knock) (w0 c : Nat)
    (_hass : k.assigned_to = some w0) (hc : c ∈ k.submits) :
    assing_to k k.requester c = .ok { k with assigned_to := some c }
    ∧ ({ k with assigned_to := some c } : Knock).assigned_to = some c := by
  exact ⟨by simp [assing_to, hc], rfl⟩

/-- C9 witness: a knock already assigned to 5 is reassigned to submitter 6. -/
theorem assign_overwrite_C9_witness :
    assing_to { requester := 0, submits := [5, 6], assigned_to := some 5 } 0 6
      = .ok { requester := 0, submits := [5, 6], assigned_to := some 6 } :=
  (assign_overwrite_C9 { requester := 0, submits := [5, 6], assigned_to := some 5 }
    5 6 rfl (by decide)).1

/-- C5: a missing `rating` field, a value that does not parse as an integer,
or an integer outside `[1,5]` makes `rating` fail for every actor, writing
neither rating field (no updated record is produced). -/
theorem rating_invalid_C5 (k : Knock) (a : Nat) (s : String) :
    (rating k a none = .error (Err.permissionDenied "rating field missing"))
    ∧ (pyInt? s = none →
        rating k a (some s)
          = .error (Err.permissionDenied "rating must be a value between 1 and 5"))
    ∧ (∀ v, pyInt? s = some v → (v < 1 ∨ 5 < v) →
        rating k a (some s)
          = .error (Err.permissionDenied "rating must be a value between 1 and 5")) := by
  exact ⟨rfl, fun hs => rating_not_int k a s hs,
    fun v hs hv => rating_out_of_range k a s v hs hv⟩

/-- C5 witness: value "7" is out of range and "abc" does not parse. -/
theorem rating_invalid_C5_witness :
    rating { requester := 0, assigned_to := some 1 } 1 (some "7")
      = .error (Err.permissionDenied "rating must be a value between 1 and 5")
    ∧ rating { requester := 0, assigned_to := some 1 } 0 (some "abc")
      = .error (Err.permissionDenied "rating must be a value between 1 and 5") :=
  ⟨(rating_invalid_C5 { requester := 0, assigned_to := some 1 } 1 "7").2.2 7
      (by decide) (by decide),
    (rating_invalid_C5 { requester := 0, assigned_to := some 1 } 0 "abc").2.1 (by decide)⟩

/-- C8: on a knock with no assigned worker, every `rating` call with a valid
value in `[1,5]` — including one by the requester — fails with the
`AttributeError` from dereferencing the absent `assigned_to`, and no call on
such a knock ever produces an updated record. -/
theorem rating_unassigned_C8 (k : Knock) (a : Nat) (hun : k.assigned_to = none) :
    (∀ s v, pyInt? s = some v → 1 ≤ v → v ≤ 5 →
      rating k a (some s)
        = .error (Err.attributeError "NoneType object has no attribute pk"))
    ∧ (∀ input k1, rating k a input ≠ .ok k1) := by
  constructor
  · intro s v hs h1 h5
    have hvr : ¬ (v < 1 ∨ 5 < v) := by omega
    simp [rating, hs, hvr, hun]
  · intro input k1 hok
    match input with
    | none => exact absurd hok (by simp [rating])
    | some s =>
      rcases hs : pyInt? s with _ | v
      · rw [rating_not_int k a s hs] at hok
        cases hok
      · by_cases hv : v < 1 ∨ 5 < v
        · rw [rating_out_of_range k a s v hs hv] at hok
          cases hok
        · rw [show rating k a (some s)
              = .error (Err.attributeError "NoneType object has no attribute pk") by
            simp [rating, hs, hv, hun]] at hok
          cases hok

/-- C8 witness: the requester rating the worker on an unassigned knock hits
the `AttributeError`. -/
theorem rating_unassigned_C8_witness :
    rating { requester := 0 } 0 (some "5")
      = .error (Err.attributeError "NoneType object has no attribute pk") :=
  (rating_unassigned_C8 { requester := 0 } 0 rfl).1 "5" 5
    (by decide) (by decide) (by decide)

/-- C6: search filters conjunctively — a knock is in the (pre-pagination)
result set exactly when it is in the store, at least one filter is active,
and it passes the case-insensitive title substring filter, the exact
request-date filter and the case-insensitive category substring filter that
are active; a malformed date is silently ignored (the same results as with no
date parameter, with the request still succeeding), and with only the title
filter active the results are exactly the title matches. -/
theorem search_filters_C6 (db : List Knock) (p : SearchParams) (k : Knock) :
    (k ∈ searchResults db p ↔
      (k ∈ db ∧ searchFilters p ≠ []
        ∧ (stripTruthy (p.title.getD "") = true →
            icontains k.title (p.title.getD "") = true)
        ∧ (∀ d, fromisoformat? (p.date.getD "") = some d → k.request_date = d)
        ∧ (stripTruthy (p.category.getD "") = true →
            icontains k.category (p.category.getD "") = true)))
    ∧ (∀ bad, fromisoformat? bad = none →
        searchResults db { p with date := some bad }
          = searchResults db { p with date := none })
    ∧ (∀ t, stripTruthy t = true → fromisoformat? (p.date.getD "") = none →
        stripTruthy (p.category.getD "") = false →
        searchResults db { p with title := some t }
          = db.filter (fun x => icontains x.title t)) := by
  refine ⟨?_, ?_, ?_⟩
  · rw [mem_searchResults]
    constructor
    · exact fun ⟨h1, h2, h3⟩ => ⟨h1, h2, (searchFilters_forall p k).mp h3⟩
    · exact fun ⟨h1, h2, h3⟩ => ⟨h1, h2, (searchFilters_forall p k).mpr h3⟩
  · intro bad hbad
    have h0 : fromisoformat? "" = none := rfl
    simp [searchResults, searchFilters, hbad, h0]
  · intro t ht hd hc
    simp [searchResults, searchFilters, ht, hd, hc, applyFilt]

/-- C6 witness: title filter "foo" matches "Foo bar" case-insensitively, with
a malformed date ignored. -/
theorem search_filters_C6_witness :
    searchResults [{ requester := 0, title := "Foo bar" }]
        { title := some "foo", date := some "2021-13-99" }
      = List.filter (fun x => icontains x.title "foo")
          [{ requester := 0, title := "Foo bar" }] :=
  (search_filters_C6 [{ requester := 0, title := "Foo bar" }]
      { date := some "2021-13-99" } { requester := 0, title := "Foo bar" }).2.2
    "foo" (by decide) (by decide) (by decide)

/-- C10: with the title and category parameters absent or whitespace-only and
the date absent or malformed, no filter is built and search returns the empty
result set — not the unfiltered list of all knocks — rendered as page 1. -/
theorem search_empty_C10 (db : List Knock) (p : SearchParams)
    (ht : stripTruthy (p.title.getD "") = false)
    (hd : fromisoformat? (p.date.getD "") = none)
    (hc : stripTruthy (p.category.getD "") = false) :
    searchResults db p = [] ∧ search db p = ([], 1) := by
  have hf : searchFilters p = [] := by
    simp [searchFilters, ht, hd, hc]
  have h0 : searchResults db p = [] := by
    simp [searchResults, hf]
  refine ⟨h0, ?_⟩
  simp only [search, h0]
  rw [show ([] : List Knock).length = 0 from rfl, validPageNumber_zero]
  rfl

/-- C10 witness: a one-knock store with blank title, malformed date and blank
category yields the empty result set. -/
theorem search_empty_C10_witness :
    searchResults [{ requester := 0, title := "Foo bar" }] { date := some "oops" } = []
    ∧ search [{ requester := 0, title := "Foo bar" }] { date := some "oops" } = ([], 1) :=
  search_empty_C10 [{ requester := 0, title := "Foo bar" }] { date := some "oops" }
    (by decide) (by decide) (by decide)

/-- C7: search pages hold at most 20 knocks; a missing or non-numeric page
parameter renders page 1, and a numeric page beyond the last page renders the
last page. -/
theorem search_pagination_C7 (db : List Knock) (p : SearchParams) :
    ((search db p).1.length ≤ 20)
    ∧ (p.page = none → search db p = (pageItems (searchResults db p) 1, 1))
    ∧ (∀ s, p.page = some s → pyInt? s = none →
        search db p = (pageItems (searchResults db p) 1, 1))
    ∧ (∀ s n, p.page = some s → pyInt? s = some n →
        ((numPages (searchResults db p).length : Int) < n) →
        search db p
          = (pageItems (searchResults db p) (numPages (searchResults db p).length),
            numPages (searchResults db p).length)) := by
  refine ⟨?_, ?_, ?_, ?_⟩
  · simp only [search, pageItems]
    rw [List.length_take]
    exact min_le_left _ _
  · intro hpg
    simp [search, validPageNumber, hpg]
  · intro s hpg hs
    simp [search, validPageNumber, hpg, hs]
  · intro s n hpg hs hn
    have : validPageNumber (searchResults db p).length p.page
        = numPages (searchResults db p).length := by
      simp only [validPageNumber, hpg, hs]
      simp [Or.inr hn]
    simp [search, this]

/-- C7 witness: on an empty result set, page "9999" clamps to the last page
(page 1) and page "abc" falls back to page 1. -/
theorem search_pagination_C7_witness :
    search ([] : List Knock) { page := some "9999" } = ([], 1) := by
  have h := (search_pagination_C7 ([] : List Knock) { page := some "9999" }).2.2.2
    "9999" 9999 rfl (by decide) (by decide)
  rw [h]
  rfl

end KnockKnock
